import Mathlib

/-!
Shallow embedding of the typemill repository's Python components:

* `src/deployment/docker/agent.py` — the HTTP command-execution agent
  (`execute_command`, `health_check`);
* `src/.github/scripts/update_perf_history.py` — the perf-history aggregator;
* `src/crates/mill-lang-python/resources/ast_tool.py` — the function lister.

JSON values are modelled by an inductive `Json`; Python-dict operations
(`get`, item assignment, `setdefault`), Python truthiness and `int()`
truncation are modelled explicitly; a Python exception escaping a handler is
modelled as an explicit `unhandled`/`Except.error` outcome.  The behaviour of
the spawned child process (and of `ast.parse`, both outside the embedded
code) is an oracle parameter of the embedded function.
-/

namespace Typemill

/-- A JSON value, as produced by Python's `json.loads` / `request.json()`
(numbers restricted to integers, which is all the agent ever builds). -/
inductive Json where
  | null
  | bool (b : Bool)
  | num  (n : Int)
  | str  (s : String)
  | arr  (elems : List Json)
  | obj  (members : List (String × Json))
deriving Repr, Inhabited

namespace Json

/-- Python truthiness (`bool(x)`) of a JSON value: `None`, `False`, `0`, `""`,
`[]` and `{}` are falsy, everything else truthy. -/
def truthy : Json → Bool
  | .null => false
  | .bool b => b
  | .num n => n != 0
  | .str s => !s.isEmpty
  | .arr es => !es.isEmpty
  | .obj ms => !ms.isEmpty

/-- Whether the value is a JSON object (a Python `dict`). -/
def isObj : Json → Bool
  | .obj _ => true
  | _ => false

/-- Field lookup on a JSON object: `some v` when the key is present, `none`
otherwise (and `none` on non-objects). -/
def get : Json → String → Option Json
  | .obj ms, k => ms.lookup k
  | _, _ => none

end Json

/-- Replace the value of key `k` (keeping its position, as Python dict
assignment does), or append the binding if the key is absent. -/
def setField : List (String × Json) → String → Json → List (String × Json)
  | [], k, v => [(k, v)]
  | (k', v') :: rest, k, v =>
      if k' = k then (k, v) :: rest else (k', v') :: setField rest k v

/-- Python's `int()` applied to a rational: truncation toward zero. -/
def pyInt (q : ℚ) : Int :=
  if 0 ≤ q then ⌊q⌋ else ⌈q⌉

/-! ### UTF-8 decoding with `errors='replace'` (line 61-62 of agent.py)

`bytes.decode('utf-8', errors='replace')` replaces each maximal subpart of an
ill-formed sequence with U+FFFD.  `utf8Step` decodes one scalar (or one
maximal ill-formed subpart) from the head of the byte list; the strict and the
replacing decoder share it. -/

/-- A UTF-8 continuation byte. -/
def isCont (b : Nat) : Bool := 0x80 ≤ b && b ≤ 0xBF

/-- Admissible range of the first continuation byte for a 3-byte lead,
excluding overlong encodings (`E0`) and surrogates (`ED`). -/
def cont3ok (lead c : Nat) : Bool :=
  if lead = 0xE0 then 0xA0 ≤ c && c ≤ 0xBF
  else if lead = 0xED then 0x80 ≤ c && c ≤ 0x9F
  else isCont c

/-- Admissible range of the first continuation byte for a 4-byte lead,
excluding overlong encodings (`F0`) and codepoints beyond U+10FFFF (`F4`). -/
def cont4ok (lead c : Nat) : Bool :=
  if lead = 0xF0 then 0x90 ≤ c && c ≤ 0xBF
  else if lead = 0xF4 then 0x80 ≤ c && c ≤ 0x8F
  else isCont c

/-- Decode one scalar value from byte `b` followed by `rest`: `(some cp, rem)`
on a well-formed sequence, `(none, rem)` after consuming one maximal
ill-formed subpart.  At least byte `b` is always consumed. -/
def utf8Step (b : Nat) (rest : List Nat) : Option Nat × List Nat :=
  if b ≤ 0x7F then (some b, rest)
  else if 0xC2 ≤ b && b ≤ 0xDF then
    match rest with
    | c1 :: r1 =>
        if isCont c1 then (some ((b - 0xC0) * 0x40 + (c1 - 0x80)), r1)
        else (none, rest)
    | [] => (none, [])
  else if 0xE0 ≤ b && b ≤ 0xEF then
    match rest with
    | c1 :: r1 =>
        if cont3ok b c1 then
          match r1 with
          | c2 :: r2 =>
              if isCont c2 then
                (some ((b - 0xE0) * 0x1000 + (c1 - 0x80) * 0x40 + (c2 - 0x80)), r2)
              else (none, r1)
          | [] => (none, [])
        else (none, rest)
    | [] => (none, [])
  else if 0xF0 ≤ b && b ≤ 0xF4 then
    match rest with
    | c1 :: r1 =>
        if cont4ok b c1 then
          match r1 with
          | c2 :: r2 =>
              if isCont c2 then
                match r2 with
                | c3 :: r3 =>
                    if isCont c3 then
                      (some ((b - 0xF0) * 0x40000 + (c1 - 0x80) * 0x1000 +
                             (c2 - 0x80) * 0x40 + (c3 - 0x80)), r3)
                    else (none, r2)
                | [] => (none, [])
              else (none, r1)
          | [] => (none, [])
        else (none, rest)
    | [] => (none, [])
  else (none, rest)

/-- Replacing decoder body: fuel-indexed (fuel `≥` length suffices since every
step consumes at least one byte); ill-formed subparts become U+FFFD. -/
def utf8ReplaceAux : Nat → List Nat → List Char
  | 0, _ => []
  | _ + 1, [] => []
  | fuel + 1, b :: rest =>
      match utf8Step b rest with
      | (some cp, rem) => Char.ofNat cp :: utf8ReplaceAux fuel rem
      | (none, rem) => '�' :: utf8ReplaceAux fuel rem

/-- Strict decoder body: fails on the first ill-formed subpart. -/
def utf8StrictAux : Nat → List Nat → Option (List Char)
  | 0, _ => none
  | _ + 1, [] => some []
  | fuel + 1, b :: rest =>
      match utf8Step b rest with
      | (some cp, rem) => (utf8StrictAux fuel rem).map (Char.ofNat cp :: ·)
      | (none, _) => none

/-- `bytes.decode('utf-8', errors='replace')`: total. -/
def utf8DecodeReplace (bytes : List Nat) : String :=
  String.mk (utf8ReplaceAux (bytes.length + 1) bytes)

/-- `bytes.decode('utf-8')` (strict): fails on ill-formed input. -/
def utf8DecodeStrict (bytes : List Nat) : Option String :=
  (utf8StrictAux (bytes.length + 1) bytes).map String.mk

/-! ### The `/execute` handler (agent.py lines 17-91) -/

/-- `COMMAND_TIMEOUT_SECONDS = 30` (agent.py line 14). -/
def COMMAND_TIMEOUT_SECONDS : Nat := 30

/-- The f-string of the 408 body (agent.py line 52). -/
def timeoutMessage : String :=
  "Command timeout after " ++ toString COMMAND_TIMEOUT_SECONDS ++ "s"

/-- What the spawn-and-communicate of the child process does, an oracle of
the environment.  Each variant carries the wall-clock seconds elapsed between
`start_time` (taken immediately before the spawn attempt, agent.py line 33)
and the `time.time()` call that stamps the response. -/
inductive ExecBehavior where
  /-- The process exits on its own before the 30-second deadline with the
  given true exit status and raw output byte streams. -/
  | completes (returncode : Int) (stdoutBytes stderrBytes : List Nat)
      (elapsedSeconds : ℚ)
  /-- `asyncio.wait_for` raises `TimeoutError` at the 30-second deadline. -/
  | timesOut (elapsedSeconds : ℚ)
  /-- Any other exception while spawning or communicating with the child;
  `msg` is its `str(e)` description. -/
  | raises (msg : String) (elapsedSeconds : ℚ)

/-- An HTTP response built by `web.json_response`. -/
structure Response where
  status : Nat
  body : Json
deriving Repr

/-- Process-lifecycle side effects of one `/execute` call. -/
structure Effects where
  /-- A child-process spawn was attempted. -/
  spawnAttempted : Bool
  /-- `process.kill()` was called (timeout path, agent.py line 48). -/
  killed : Bool
  /-- The child was waited on and reaped (`await process.wait()` on the
  timeout path, `communicate()` returning on the success path). -/
  reaped : Bool
deriving Repr, DecidableEq

/-- No process activity (validation-failure paths). -/
def noEffects : Effects := ⟨false, false, false⟩

/-- Result of one call of the handler coroutine: either an HTTP response it
built itself, or a Python exception escaping it (which aiohttp turns into a
default `500 Internal Server Error` plain-text page, not a JSON body). -/
inductive HandlerOutcome where
  | response (r : Response)
  | unhandled (excName : String)
deriving Repr

/-- Whether the handler produced its own HTTP response. -/
def HandlerOutcome.isResponse : HandlerOutcome → Bool
  | .response _ => true
  | .unhandled _ => false

/-- The JSON body of the handler's own response, if any. -/
def HandlerOutcome.jsonBody : HandlerOutcome → Option Json
  | .response r => some r.body
  | .unhandled _ => none

/-- The try-block of agent.py lines 34-91 once a spawn is attempted: maps the
environment's answer to the built response and the process-lifecycle
effects. -/
def behaviorOutcome : ExecBehavior → HandlerOutcome × Effects
  | .completes rc sob seb t =>
      -- lines 59-78: 200 with decoded output and the true returncode
      (.response ⟨200, .obj
         [("exit_code", .num rc),
          ("stdout", .str (utf8DecodeReplace sob)),
          ("stderr", .str (utf8DecodeReplace seb)),
          ("execution_time_ms", .num (pyInt (t * 1000)))]⟩,
       ⟨true, false, true⟩)
  | .timesOut t =>
      -- lines 47-57: kill, await wait, then 408 with output discarded
      (.response ⟨408, .obj
         [("error", .str timeoutMessage),
          ("exit_code", .num (-1)),
          ("stdout", .str ""),
          ("stderr", .str ""),
          ("execution_time_ms", .num (pyInt (t * 1000)))]⟩,
       ⟨true, true, true⟩)
  | .raises msg t =>
      -- lines 80-91: 500 with str(e)
      (.response ⟨500, .obj
         [("error", .str msg),
          ("exit_code", .num (-1)),
          ("stdout", .str ""),
          ("stderr", .str ""),
          ("execution_time_ms", .num (pyInt (t * 1000)))]⟩,
       ⟨true, false, false⟩)

/-- `execute_command` (agent.py lines 17-91).  `body` is the result of
`await request.json()`: `none` when that raised `json.JSONDecodeError`,
`some v` when the body parsed to the JSON value `v`.  `behavior` is the
environment's answer to the spawn attempt. -/
def execute_command (body : Option Json) (behavior : ExecBehavior) :
    HandlerOutcome × Effects :=
  match body with
  | none =>
      -- except json.JSONDecodeError: 400 "Invalid JSON"
      (.response ⟨400, .obj [("error", .str "Invalid JSON")]⟩, noEffects)
  | some data =>
      if !data.isObj then
        -- data.get("command") on a non-dict raises AttributeError,
        -- which no except-clause of the handler catches
        (.unhandled "AttributeError", noEffects)
      else
        -- command = data.get("command"); absent keys give Python None
        let command : Json := (data.get "command").getD .null
        if !command.truthy then
          (.response ⟨400, .obj [("error", .str "Missing 'command' field")]⟩,
           noEffects)
        else
          behaviorOutcome behavior

/-- `health_check` (agent.py lines 94-96): ignores its request entirely and
returns `web.json_response({"status": "healthy"})`, whose default status
is 200. -/
def health_check {α : Type} (_request : α) : Response :=
  ⟨200, .obj [("status", .str "healthy")]⟩

/-! ### The perf-history aggregator (update_perf_history.py lines 23-55)

File-system reads are oracle parameters: `prior` is the result of
`load_json(HISTORY_FILE)` (`none` when the file is missing or unparsable,
since `load_json` catches every exception), and `artifacts` is the sorted
list of `*_matrix.json` files together with their `load_json` results.  A
Python exception aborting `main` (no history written) is `Except.error`. -/

/-- `PERF_HISTORY_SCHEMA_VERSION = 1` (update_perf_history.py line 9). -/
def PERF_HISTORY_SCHEMA_VERSION : Int := 1

/-- The default history document of line 25-28:
`{"schema_version": 1, "runs": []}`. -/
def perfDefault : Json :=
  .obj [("schema_version", .num PERF_HISTORY_SCHEMA_VERSION), ("runs", .arr [])]

/-- `load_json(HISTORY_FILE) or {…}` (line 25): the default replaces a missing
or unparsable file and any falsy parsed document. -/
def loadedHistory : Option Json → Json
  | none => perfDefault
  | some d => if d.truthy then d else perfDefault

/-- Python's `x.get(k, default)`: raises `AttributeError` on a non-dict. -/
def pyGet (x : Json) (k : String) (dflt : Json) : Except String Json :=
  match x with
  | .obj ms => .ok ((ms.lookup k).getD dflt)
  | _ => .error "AttributeError"

/-- Python's `x[k] = v` on a JSON value: raises `TypeError` unless `x` is a
dict. -/
def pySetItem (x : Json) (k : String) (v : Json) : Except String Json :=
  match x with
  | .obj ms => .ok (.obj (setField ms k v))
  | _ => .error "TypeError"

/-- One entry of `run_record["artifacts"]` (lines 41-49): the seven fields
copied out of an artifact document with `data.get`. -/
def artifactEntry (data : Json) : Except String Json := do
  let sv ← pyGet data "schema_version" (.num PERF_HISTORY_SCHEMA_VERSION)
  let project ← pyGet data "project" .null
  let profile ← pyGet data "profile" .null
  let verifyEvery ← pyGet data "verify_every" .null
  let thresholdExceedances ← pyGet data "threshold_exceedances" (.arr [])
  let runTimings ← pyGet data "run_timings" (.obj [])
  let results ← pyGet data "results" (.arr [])
  .ok (.obj
    [("schema_version", sv), ("project", project), ("profile", profile),
     ("verify_every", verifyEvery),
     ("threshold_exceedances", thresholdExceedances),
     ("run_timings", runTimings), ("results", results)])

/-- The loop of lines 37-49: build the `artifacts` dict of the run record,
skipping files whose `load_json` result is `None` or falsy
(`if not data: continue`). -/
def buildArtifacts (artifacts : List (String × Option Json)) :
    Except String (List (String × Json)) :=
  artifacts.foldlM
    (fun acc p =>
      match p.2 with
      | none => .ok acc
      | some data =>
          if data.truthy then
            (artifactEntry data).map (fun e => setField acc p.1 e)
          else .ok acc)
    []

/-- The run record of lines 30-34 with its `artifacts` dict filled in. -/
def runRecordVal (timestamp : String) (arts : List (String × Json)) : Json :=
  .obj [("schema_version", .num PERF_HISTORY_SCHEMA_VERSION),
        ("timestamp", .str timestamp), ("artifacts", .obj arts)]

/-- Python's `l[-30:]`: the last `n` elements of a list. -/
def takeLast (n : Nat) (l : List α) : List α :=
  l.drop (l.length - n)

/-- `main` of update_perf_history.py (lines 23-55), up to the final
`HISTORY_FILE.write_text`: returns the document that is written, or the name
of the Python exception that aborts the run.  `prior` is the loaded history
file, `artifacts` the sorted artifact files with their parse results,
`timestamp` the `datetime.now(timezone.utc).isoformat()` string. -/
def perfMain (prior : Option Json) (artifacts : List (String × Option Json))
    (timestamp : String) : Except String Json :=
  let history := loadedHistory prior
  match buildArtifacts artifacts with
  | .error e => .error e
  | .ok arts =>
      let record := runRecordVal timestamp arts
      -- history["schema_version"] = PERF_HISTORY_SCHEMA_VERSION
      match pySetItem history "schema_version"
          (.num PERF_HISTORY_SCHEMA_VERSION) with
      | .error e => .error e
      | .ok (.obj ms) =>
          -- history.setdefault("runs", []).append(run_record)
          let ms' := if (ms.lookup "runs").isSome then ms
                     else ms ++ [("runs", .arr [])]
          match (ms.lookup "runs").getD (.arr []) with
          | .arr runs =>
              -- history["runs"] = history["runs"][-30:]
              .ok (.obj (setField ms' "runs"
                    (.arr (takeLast 30 (runs ++ [record])))))
          | _ =>
              -- .append on a non-list raises AttributeError
              .error "AttributeError"
      | .ok _ =>
          -- unreachable: pySetItem only succeeds on a dict
          .error "TypeError"

/-! ### The function lister (ast_tool.py)

`ast.parse` / `ast.walk` are library calls outside the embedded code; their
outcome is the oracle `PyParseResult`: either the list of `FunctionDef` names
collected in walk order, or the `SyntaxError`'s `msg`/`lineno`/`offset`. -/

/-- Outcome of `ast.parse` + the `ast.walk` collection loop
(ast_tool.py lines 9-14). -/
inductive PyParseResult where
  | ok (functionNames : List String)
  | failed (msg lineno offset : Json)

/-- `list_functions` (ast_tool.py lines 5-25). -/
def list_functions (parse : PyParseResult) : Json :=
  match parse with
  | .ok names =>
      .obj [("status", .str "success"), ("data", .arr (names.map .str))]
  | .failed m l o =>
      .obj [("status", .str "error"),
            ("error", .obj [("type", .str "SyntaxError"), ("message", m),
                            ("lineno", l), ("offset", o)])]

/-- Observable result of one run of the `__main__` block: the exit status and
the JSON value printed to each stream (`none` when nothing is printed there). -/
structure ProcResult where
  exitCode : Nat
  stdoutJson : Option Json
  stderrJson : Option Json
deriving Repr

/-- The `__main__` block of ast_tool.py (lines 27-44).  `argv` is `sys.argv`
(so `argv[0]` is the script name); `parse` is the `ast.parse` oracle for the
source text read from standard input. -/
def astToolMain (argv : List String) (parse : PyParseResult) : ProcResult :=
  if argv.length < 2 then
    ⟨1, none,
     some (.obj [("status", .str "error"),
                 ("error", .obj [("type", .str "UsageError"),
                                 ("message", .str "No command provided.")])])⟩
  else
    let command := (argv.get? 1).getD ""
    if command = "list-functions" then
      let result := list_functions parse
      match result.get "status" with
      | some (.str s) =>
          if s = "success" then ⟨0, result.get "data", none⟩
          else ⟨1, none, result.get "error"⟩
      | _ => ⟨1, none, result.get "error"⟩
    else
      ⟨1, none,
       some (.obj [("status", .str "error"),
                   ("error", .obj [("type", .str "UsageError"),
                                   ("message",
                                    .str ("Unknown command: " ++ command))])])⟩

/-! ## Helper lemmas -/

/-- Looking up the key just set finds the new value. -/
theorem lookup_setField_eq (ms : List (String × Json)) (k : String) (v : Json) :
    (setField ms k v).lookup k = some v := by
  induction ms with
  | nil => simp [setField, List.lookup]
  | cons p rest ih =>
      obtain ⟨k', v'⟩ := p
      by_cases h : k' = k
      · subst h
        simp [setField, List.lookup]
      · have hne : (k == k') = false := beq_eq_false_iff_ne.mpr (Ne.symm h)
        simp [setField, h, List.lookup, hne, ih]

/-- Setting one key leaves lookups of other keys unchanged. -/
theorem lookup_setField_ne (ms : List (String × Json)) (k k' : String)
    (v : Json) (h : k ≠ k') : (setField ms k' v).lookup k = ms.lookup k := by
  have hne : (k == k') = false := beq_eq_false_iff_ne.mpr h
  induction ms with
  | nil => simp [setField, List.lookup, hne]
  | cons p rest ih =>
      obtain ⟨k₀, v₀⟩ := p
      by_cases h₀ : k₀ = k'
      · subst h₀
        simp [setField, List.lookup, hne]
      · simp only [setField, if_neg h₀, List.lookup]
        cases hbk : k == k₀ <;> simp [ih]

/-- Dispatch of `execute_command` on an object body with a falsy (or absent)
`command`: the 400 "Missing 'command' field" response, no spawn. -/
theorem execute_command_missing (ms : List (String × Json))
    (behavior : ExecBehavior)
    (h : (((Json.obj ms).get "command").getD .null).truthy = false) :
    execute_command (some (.obj ms)) behavior =
      (.response ⟨400, .obj [("error", .str "Missing 'command' field")]⟩,
       noEffects) := by
  simp [execute_command, Json.isObj, h]

/-- Dispatch of `execute_command` on an object body with a truthy `command`:
the outcome is whatever the spawn environment dictates. -/
theorem execute_command_spawn (ms : List (String × Json))
    (behavior : ExecBehavior)
    (h : (((Json.obj ms).get "command").getD .null).truthy = true) :
    execute_command (some (.obj ms)) behavior = behaviorOutcome behavior := by
  simp [execute_command, Json.isObj, h]

/-- `utf8Step` never lengthens the remaining input. -/
theorem utf8Step_length (b : Nat) (rest : List Nat) :
    (utf8Step b rest).2.length ≤ rest.length := by
  unfold utf8Step
  repeat' split
  all_goals simp_all
  all_goals omega

/-- Wherever the strict decoder succeeds, the replacing decoder agrees. -/
theorem utf8Aux_agree :
    ∀ (fuel : Nat) (l : List Nat) (cs : List Char),
      utf8StrictAux fuel l = some cs → utf8ReplaceAux fuel l = cs := by
  intro fuel
  induction fuel with
  | zero => intro l cs h; simp [utf8StrictAux] at h
  | succ n ih =>
      intro l cs h
      cases l with
      | nil =>
          simp only [utf8StrictAux, Option.some.injEq] at h
          simp [utf8ReplaceAux, ← h]
      | cons b rest =>
          simp only [utf8StrictAux] at h
          simp only [utf8ReplaceAux]
          rcases hstep : utf8Step b rest with ⟨o, rem⟩
          rw [hstep] at h
          cases o with
          | none => simp at h
          | some cp =>
              simp only [Option.map_eq_some'] at h
              obtain ⟨cs', hcs', rfl⟩ := h
              simp [ih rem cs' hcs']

/-- Wherever the strict decoder fails, the replacing decoder has inserted the
U+FFFD placeholder. -/
theorem utf8Aux_replaced :
    ∀ (fuel : Nat) (l : List Nat), l.length < fuel →
      utf8StrictAux fuel l = none → '�' ∈ utf8ReplaceAux fuel l := by
  intro fuel
  induction fuel with
  | zero => intro l hl; omega
  | succ n ih =>
      intro l hl h
      cases l with
      | nil => simp [utf8StrictAux] at h
      | cons b rest =>
          simp only [utf8StrictAux] at h
          simp only [utf8ReplaceAux]
          rcases hstep : utf8Step b rest with ⟨o, rem⟩
          rw [hstep] at h
          have hrem : rem.length ≤ rest.length := by
            have := utf8Step_length b rest
            rw [hstep] at this
            exact this
          cases o with
          | none => simp
          | some cp =>
              simp only [Option.map_eq_none'] at h
              have hlen : rem.length < n := by
                simp only [List.length_cons] at hl
                omega
              exact List.mem_cons_of_mem _ (ih rem hlen h)

/-- Agreement of `utf8DecodeReplace` with the strict decode of valid input. -/
theorem utf8DecodeReplace_strict (bytes : List Nat) (s : String)
    (h : utf8DecodeStrict bytes = some s) : utf8DecodeReplace bytes = s := by
  simp only [utf8DecodeStrict, Option.map_eq_some'] at h
  obtain ⟨cs, hcs, rfl⟩ := h
  unfold utf8DecodeReplace
  rw [utf8Aux_agree _ _ _ hcs]

/-- On every ill-formed byte string the replacing decoder yields a string
containing the U+FFFD placeholder (instead of failing). -/
theorem utf8DecodeReplace_replaced (bytes : List Nat)
    (h : utf8DecodeStrict bytes = none) :
    '�' ∈ (utf8DecodeReplace bytes).data := by
  simp only [utf8DecodeStrict, Option.map_eq_none'] at h
  exact utf8Aux_replaced (bytes.length + 1) bytes (by omega) h

/-- The handler built this HTTP response itself, and unless it is the 200
success its JSON body carries an `"error"` key. -/
def structuredOutcome (out : HandlerOutcome) : Prop :=
  ∃ r, out = HandlerOutcome.response r ∧
    (r.status = 200 ∨ (r.body.get "error").isSome = true)

/-! ## The claims -/

/-- C9: `GET /health` always answers 200 `{"status": "healthy"}`, identically
on every invocation and for every request value — the handler ignores its
argument and touches no state. -/
theorem health_check_contract {α : Type} (r r' : α) :
    health_check r = ⟨200, .obj [("status", Json.str "healthy")]⟩ ∧
    health_check r = health_check r' :=
  ⟨rfl, rfl⟩

/-- C4: a body that does not parse as JSON gives 400 `{"error": "Invalid
JSON"}`; a JSON-object body whose `command` is absent or the empty string
gives 400 `{"error": "Missing 'command' field"}`; in both cases no spawn is
attempted and the body carries no `execution_time_ms` field. -/
theorem execute_validation_contract (behavior : ExecBehavior)
    (ms : List (String × Json))
    (h : ((Json.obj ms).get "command").getD .null = Json.null ∨
         ((Json.obj ms).get "command").getD .null = Json.str "") :
    execute_command none behavior =
      (.response ⟨400, .obj [("error", .str "Invalid JSON")]⟩, noEffects) ∧
    execute_command (some (.obj ms)) behavior =
      (.response ⟨400, .obj [("error", .str "Missing 'command' field")]⟩,
       noEffects) ∧
    noEffects.spawnAttempted = false ∧
    (((execute_command none behavior).1.jsonBody.getD .null).get
        "execution_time_ms" = none) ∧
    (((execute_command (some (.obj ms)) behavior).1.jsonBody.getD .null).get
        "execution_time_ms" = none) := by
  have hcmd : (((Json.obj ms).get "command").getD .null).truthy = false := by
    rcases h with h | h <;> rw [h] <;> rfl
  have h400 := execute_command_missing ms behavior hcmd
  refine ⟨rfl, h400, rfl, rfl, ?_⟩
  rw [h400]
  rfl

/-- Closed instance of `execute_validation_contract`: the empty JSON object
body (command absent) and an unparsable body, with an arbitrary environment
behaviour. -/
theorem execute_validation_contract_witness :
    execute_command none (.completes 0 [] [] 0) =
      (.response ⟨400, .obj [("error", .str "Invalid JSON")]⟩, noEffects) ∧
    execute_command (some (.obj [])) (.completes 0 [] [] 0) =
      (.response ⟨400, .obj [("error", .str "Missing 'command' field")]⟩,
       noEffects) ∧
    noEffects.spawnAttempted = false ∧
    (((execute_command none (.completes 0 [] [] 0)).1.jsonBody.getD .null).get
        "execution_time_ms" = none) ∧
    (((execute_command (some (.obj [])) (.completes 0 [] [] 0)).1.jsonBody.getD
        .null).get "execution_time_ms" = none) :=
  execute_validation_contract (.completes 0 [] [] 0) [] (Or.inl rfl)

/-- C10: a `command` value that is present but falsy (`0`, `false`, `null`,
`[]`, `{}`) is treated exactly like a missing command: 400
`{"error": "Missing 'command' field"}` and no spawn attempt. -/
theorem execute_falsy_command_contract (behavior : ExecBehavior)
    (ms : List (String × Json)) (v : Json)
    (hget : (Json.obj ms).get "command" = some v)
    (hfalsy : v.truthy = false) (hne : v ≠ Json.str "") :
    execute_command (some (.obj ms)) behavior =
      (.response ⟨400, .obj [("error", .str "Missing 'command' field")]⟩,
       noEffects) := by
  apply execute_command_missing
  rw [hget]
  exact hfalsy

/-- Closed instance of `execute_falsy_command_contract` at
`{"command": 0}`. -/
theorem execute_falsy_command_contract_witness :
    execute_command (some (.obj [("command", Json.num 0)]))
        (.completes 0 [] [] 0) =
      (.response ⟨400, .obj [("error", .str "Missing 'command' field")]⟩,
       noEffects) :=
  execute_falsy_command_contract (.completes 0 [] [] 0)
    [("command", Json.num 0)] (Json.num 0) rfl rfl (fun h => Json.noConfusion h)

/-- C1: when the spawned process misses the 30-second deadline, the response
is 408 with `error = "Command timeout after 30s"`, `exit_code = -1`, empty
`stdout`/`stderr` (buffered output discarded), and the child is both killed
and reaped. -/
theorem execute_timeout_contract (ms : List (String × Json)) (t : ℚ)
    (h : (((Json.obj ms).get "command").getD .null).truthy = true) :
    execute_command (some (.obj ms)) (.timesOut t) =
      (.response ⟨408, .obj
         [("error", .str "Command timeout after 30s"),
          ("exit_code", .num (-1)), ("stdout", .str ""), ("stderr", .str ""),
          ("execution_time_ms", .num (pyInt (t * 1000)))]⟩,
       ⟨true, true, true⟩) := by
  rw [execute_command_spawn ms _ h]
  rfl

/-- Closed instance of `execute_timeout_contract` at
`{"command": "sleep 31"}` with the deadline elapsed. -/
theorem execute_timeout_contract_witness :
    execute_command (some (.obj [("command", Json.str "sleep 31")]))
        (.timesOut 30) =
      (.response ⟨408, .obj
         [("error", .str "Command timeout after 30s"),
          ("exit_code", .num (-1)), ("stdout", .str ""), ("stderr", .str ""),
          ("execution_time_ms", .num 30000)]⟩,
       ⟨true, true, true⟩) := by
  have h := execute_timeout_contract [("command", Json.str "sleep 31")] 30 rfl
  rw [h]
  norm_num [pyInt]

/-- C5: any non-timeout fault while spawning or communicating gives 500 with
`error` the fault's description, `exit_code = -1`, empty `stdout`/`stderr`,
and `execution_time_ms` stamped from the elapsed time since the instant
immediately preceding the spawn attempt. -/
theorem execute_failure_contract (ms : List (String × Json)) (msg : String)
    (t : ℚ)
    (h : (((Json.obj ms).get "command").getD .null).truthy = true) :
    execute_command (some (.obj ms)) (.raises msg t) =
      (.response ⟨500, .obj
         [("error", .str msg),
          ("exit_code", .num (-1)), ("stdout", .str ""), ("stderr", .str ""),
          ("execution_time_ms", .num (pyInt (t * 1000)))]⟩,
       ⟨true, false, false⟩) := by
  rw [execute_command_spawn ms _ h]
  rfl

/-- Closed instance of `execute_failure_contract`: the shell is unavailable. -/
theorem execute_failure_contract_witness :
    execute_command (some (.obj [("command", Json.str "echo hi")]))
        (.raises "No such file or directory: /bin/sh" (1 / 100)) =
      (.response ⟨500, .obj
         [("error", .str "No such file or directory: /bin/sh"),
          ("exit_code", .num (-1)), ("stdout", .str ""), ("stderr", .str ""),
          ("execution_time_ms", .num 10)]⟩,
       ⟨true, false, false⟩) := by
  have h := execute_failure_contract [("command", Json.str "echo hi")]
    "No such file or directory: /bin/sh" (1 / 100) rfl
  rw [h]
  norm_num [pyInt]

/-- C2 (amended): a process exiting on its own before the deadline yields a
200 response whose `exit_code` is the process's true exit status and whose
`execution_time_ms` is the truncated elapsed milliseconds, which is
nonnegative (but can be 0 for sub-millisecond completions, so not strictly
positive). -/
theorem execute_success_exit_code_time (ms : List (String × Json)) (rc : Int)
    (sob seb : List Nat) (t : ℚ)
    (h : (((Json.obj ms).get "command").getD .null).truthy = true)
    (ht : 0 ≤ t) :
    execute_command (some (.obj ms)) (.completes rc sob seb t) =
      (.response ⟨200, .obj
         [("exit_code", .num rc),
          ("stdout", .str (utf8DecodeReplace sob)),
          ("stderr", .str (utf8DecodeReplace seb)),
          ("execution_time_ms", .num (pyInt (t * 1000)))]⟩,
       ⟨true, false, true⟩) ∧
    0 ≤ pyInt (t * 1000) := by
  constructor
  · rw [execute_command_spawn ms _ h]
    rfl
  · have ht' : (0 : ℚ) ≤ t * 1000 := by positivity
    rw [pyInt, if_pos ht']
    exact Int.floor_nonneg.mpr ht'

/-- Closed instance of `execute_success_exit_code_time` at
`{"command": "exit 7"}` completing in 12 ms with exit status 7. -/
theorem execute_success_exit_code_time_witness :
    execute_command (some (.obj [("command", Json.str "exit 7")]))
        (.completes 7 [] [] (3 / 250)) =
      (.response ⟨200, .obj
         [("exit_code", .num 7), ("stdout", .str ""), ("stderr", .str ""),
          ("execution_time_ms", .num 12)]⟩,
       ⟨true, false, true⟩) ∧
    (0 : Int) ≤ 12 := by
  have h := execute_success_exit_code_time [("command", Json.str "exit 7")]
    7 [] [] (3 / 250) rfl (by norm_num)
  have hms : pyInt ((3 / 250 : ℚ) * 1000) = 12 := by norm_num [pyInt]
  constructor
  · rw [h.1, hms]
    rfl
  · norm_num

/-- C2 counterexample: a command that completes in half a millisecond is
stamped `execution_time_ms = 0` by `int((time.time() - start_time) * 1000)`,
so the field is not strictly greater than 0. -/
theorem execute_success_submillisecond_counterexample :
    (execute_command (some (.obj [("command", Json.str "true")]))
        (.completes 0 [] [] (1 / 2000))).1 =
      .response ⟨200, .obj
         [("exit_code", .num 0), ("stdout", .str ""), ("stderr", .str ""),
          ("execution_time_ms", .num 0)]⟩ ∧
    ¬ (0 : Int) > 0 := by
  have hms : pyInt ((1 / 2000 : ℚ) * 1000) = 0 := by norm_num [pyInt]
  constructor
  · show (behaviorOutcome (.completes 0 [] [] (1 / 2000))).1 = _
    rw [behaviorOutcome, hms]
    rfl
  · omega

/-- C3 (amended): for a body that fails to parse and for every body parsing
to a JSON object, each of the handler's paths — invalid input, success,
timeout, execution failure — yields a structured JSON response, every non-200
one carrying an `"error"` key.  (Bodies parsing to non-object JSON instead
raise an uncaught `AttributeError`; see the counterexample.) -/
theorem execute_structured_errors (behavior : ExecBehavior)
    (ms : List (String × Json)) :
    structuredOutcome (execute_command none behavior).1 ∧
    structuredOutcome (execute_command (some (.obj ms)) behavior).1 := by
  constructor
  · exact ⟨_, rfl, Or.inr rfl⟩
  · cases h : (((Json.obj ms).get "command").getD .null).truthy with
    | false =>
        rw [execute_command_missing ms _ h]
        exact ⟨_, rfl, Or.inr rfl⟩
    | true =>
        rw [execute_command_spawn ms _ h]
        cases behavior with
        | completes rc sob seb t => exact ⟨_, rfl, Or.inl rfl⟩
        | timesOut t => exact ⟨_, rfl, Or.inr rfl⟩
        | raises msg t => exact ⟨_, rfl, Or.inr rfl⟩

/-- C3 counterexample: a request body parsing to the JSON array `[]` makes
`data.get("command")` raise `AttributeError`, which no except-clause catches:
the fault escapes the handler unstructured, producing no JSON body at all. -/
theorem execute_nonobject_unstructured_counterexample :
    (execute_command (some (Json.arr [])) (.completes 0 [] [] 0)).1 =
      HandlerOutcome.unhandled "AttributeError" ∧
    (execute_command (some (Json.arr [])) (.completes 0 [] [] 0)).1.isResponse
      = false ∧
    (execute_command (some (Json.arr [])) (.completes 0 [] [] 0)).1.jsonBody
      = none :=
  ⟨rfl, rfl, rfl⟩

/-- C6: decoding of the child's output is total. For every captured stdout
and stderr byte strings the success response carries exactly
`utf8DecodeReplace` of them as text; the replacing decoder agrees with the
strict UTF-8 decode whenever the bytes are valid, and on invalid bytes it
yields a string containing the U+FFFD placeholder instead of failing the
request. -/
theorem execute_output_decoding_total (ms : List (String × Json)) (rc : Int)
    (sob seb : List Nat) (t : ℚ)
    (h : (((Json.obj ms).get "command").getD .null).truthy = true) :
    execute_command (some (.obj ms)) (.completes rc sob seb t) =
      (.response ⟨200, .obj
         [("exit_code", .num rc),
          ("stdout", .str (utf8DecodeReplace sob)),
          ("stderr", .str (utf8DecodeReplace seb)),
          ("execution_time_ms", .num (pyInt (t * 1000)))]⟩,
       ⟨true, false, true⟩) ∧
    utf8DecodeReplace sob = (utf8DecodeStrict sob).getD (utf8DecodeReplace sob) ∧
    utf8DecodeReplace seb = (utf8DecodeStrict seb).getD (utf8DecodeReplace seb) ∧
    (utf8DecodeStrict sob = none → '�' ∈ (utf8DecodeReplace sob).data) ∧
    (utf8DecodeStrict seb = none → '�' ∈ (utf8DecodeReplace seb).data) := by
  refine ⟨by rw [execute_command_spawn ms _ h]; rfl, ?_, ?_,
    utf8DecodeReplace_replaced sob, utf8DecodeReplace_replaced seb⟩
  · cases hs : utf8DecodeStrict sob with
    | none => rfl
    | some s => simp [utf8DecodeReplace_strict sob s hs]
  · cases hs : utf8DecodeStrict seb with
    | none => rfl
    | some s => simp [utf8DecodeReplace_strict seb s hs]

/-- Closed instance of `execute_output_decoding_total`: stdout is the lone
invalid byte `0xFF` (decoded to the placeholder), stderr the valid bytes of
`"hi"` (decoded faithfully). -/
theorem execute_output_decoding_total_witness :
    execute_command (some (.obj [("command", Json.str "cat")]))
        (.completes 0 [0xFF] [0x68, 0x69] 0) =
      (.response ⟨200, .obj
         [("exit_code", .num 0),
          ("stdout", .str (utf8DecodeReplace [0xFF])),
          ("stderr", .str (utf8DecodeReplace [0x68, 0x69])),
          ("execution_time_ms", .num (pyInt (0 * 1000)))]⟩,
       ⟨true, false, true⟩) ∧
    '�' ∈ (utf8DecodeReplace [0xFF]).data ∧
    utf8DecodeReplace [0x68, 0x69] = "hi" := by
  have h := execute_output_decoding_total [("command", Json.str "cat")] 0
      [0xFF] [0x68, 0x69] 0 rfl
  refine ⟨h.1, h.2.2.2.1 rfl, ?_⟩
  have h2 := h.2.2.1
  rw [show utf8DecodeStrict [0x68, 0x69] = some "hi" from rfl] at h2
  exact h2

/-- Whether the aggregator run completed (and wrote a document) rather than
crashing on a Python exception. -/
def perfResultOk : Except String Json → Bool
  | .ok _ => true
  | .error _ => false

/-- The document a completed aggregator run writes (`null` on a crash). -/
def perfResultDoc : Except String Json → Json
  | .ok d => d
  | .error _ => .null

/-- `takeLast n` keeps at most `n` elements. -/
theorem takeLast_length_le (n : Nat) (l : List α) :
    (takeLast n l).length ≤ n := by
  simp only [takeLast, List.length_drop]
  omega

/-- With a positive budget, the freshly appended element survives `takeLast`
and stays last. -/
theorem takeLast_append_getLast (n : Nat) (hn : 0 < n) (l : List α) (x : α) :
    (takeLast n (l ++ [x])).getLast? = some x := by
  unfold takeLast
  have hk : (l ++ [x]).length - n ≤ l.length := by
    simp only [List.length_append, List.length_cons, List.length_nil]
    omega
  rw [List.drop_append_of_le_length hk]
  exact List.getLast?_concat _

/-- Computation of `perfMain` on a loaded history dict whose `runs` is absent
or a list, when the artifact loop completes: the written document replaces
`runs` with the appended-and-capped list. -/
theorem perfMain_ok (prior : Option Json)
    (artifacts : List (String × Option Json)) (ts : String)
    (arts : List (String × Json)) (ms : List (String × Json))
    (runs : List Json)
    (hA : buildArtifacts artifacts = .ok arts)
    (hprior : loadedHistory prior = .obj ms)
    (hruns : (ms.lookup "runs").getD (.arr []) = .arr runs) :
    ∃ ms' : List (String × Json),
      perfMain prior artifacts ts =
        .ok (.obj (setField ms' "runs"
              (.arr (takeLast 30 (runs ++ [runRecordVal ts arts]))))) := by
  refine ⟨if (ms.lookup "runs").isSome
          then setField ms "schema_version" (.num PERF_HISTORY_SCHEMA_VERSION)
          else setField ms "schema_version" (.num PERF_HISTORY_SCHEMA_VERSION)
               ++ [("runs", Json.arr [])], ?_⟩
  unfold perfMain
  rw [hprior, hA]
  dsimp only [pySetItem]
  rw [lookup_setField_ne ms "runs" "schema_version" _ (by decide), hruns]

/-- C7 (amended): for every prior history document that is missing,
unparsable, falsy, or a JSON object whose `runs` key is absent or holds a
list — and artifact files whose loaded contents let the collection loop
complete — one invocation writes a document whose `runs` list is the prior
list with exactly the one new timestamped run record appended and then capped
to the most recent 30, the new record last.  (Other parseable prior documents
crash the run before any write; see the counterexample.) -/
theorem perfMain_appends_and_caps (prior : Option Json)
    (artifacts : List (String × Option Json)) (ts : String)
    (arts : List (String × Json)) (ms : List (String × Json))
    (runs : List Json)
    (hA : buildArtifacts artifacts = .ok arts)
    (hprior : loadedHistory prior = .obj ms)
    (hruns : (ms.lookup "runs").getD (.arr []) = .arr runs) :
    perfResultOk (perfMain prior artifacts ts) = true ∧
    (perfResultDoc (perfMain prior artifacts ts)).get "runs" =
      some (.arr (takeLast 30 (runs ++ [runRecordVal ts arts]))) ∧
    (takeLast 30 (runs ++ [runRecordVal ts arts])).length ≤ 30 ∧
    (takeLast 30 (runs ++ [runRecordVal ts arts])).getLast? =
      some (runRecordVal ts arts) ∧
    (runRecordVal ts arts).get "timestamp" = some (.str ts) := by
  obtain ⟨ms', hmain⟩ := perfMain_ok prior artifacts ts arts ms runs hA hprior hruns
  refine ⟨?_, ?_, takeLast_length_le _ _,
    takeLast_append_getLast 30 (by norm_num) _ _, rfl⟩
  · rw [hmain]
    rfl
  · rw [hmain]
    show (Json.obj (setField ms' "runs" _)).get "runs" = _
    simp [Json.get, lookup_setField_eq]

/-- Closed instance of `perfMain_appends_and_caps`: no prior history file, no
artifact files. -/
theorem perfMain_appends_and_caps_witness :
    perfResultOk (perfMain none [] "2024-01-01T00:00:00+00:00") = true ∧
    (perfResultDoc (perfMain none [] "2024-01-01T00:00:00+00:00")).get "runs" =
      some (.arr (takeLast 30
        ([] ++ [runRecordVal "2024-01-01T00:00:00+00:00" []]))) ∧
    (takeLast 30
        ([] ++ [runRecordVal "2024-01-01T00:00:00+00:00" []])).length ≤ 30 ∧
    (takeLast 30
        ([] ++ [runRecordVal "2024-01-01T00:00:00+00:00" []])).getLast? =
      some (runRecordVal "2024-01-01T00:00:00+00:00" []) ∧
    (runRecordVal "2024-01-01T00:00:00+00:00" []).get "timestamp" =
      some (.str "2024-01-01T00:00:00+00:00") :=
  perfMain_appends_and_caps none [] "2024-01-01T00:00:00+00:00" []
    [("schema_version", Json.num 1), ("runs", Json.arr [])] [] rfl rfl rfl

/-- C7 counterexample: a prior history document that parses to the number `5`
crashes the aggregator at `history["schema_version"] = …` (TypeError) with
nothing appended or written; one parsing to `{"runs": 5}` crashes at
`.append` on the non-list (AttributeError). -/
theorem perfMain_nondict_counterexample :
    perfMain (some (Json.num 5)) [] "2024-01-01T00:00:00+00:00" =
      .error "TypeError" ∧
    perfMain (some (.obj [("runs", Json.num 5)])) []
        "2024-01-01T00:00:00+00:00" =
      .error "AttributeError" :=
  ⟨rfl, rfl⟩

/-- C8: `list-functions` with a parsing source prints the JSON array of the
collected function names to standard output and exits 0; with a failing
parse it prints the `{type, message, lineno, offset}` object to standard
error and exits 1; any other command word yields a JSON usage-error object on
standard error and exit 1. -/
theorem astToolMain_contract (prog cmd : String) (rest : List String)
    (names : List String) (m l o : Json) (parse : PyParseResult)
    (hcmd : cmd ≠ "list-functions") :
    astToolMain (prog :: "list-functions" :: rest) (.ok names) =
      ⟨0, some (.arr (names.map .str)), none⟩ ∧
    astToolMain (prog :: "list-functions" :: rest) (.failed m l o) =
      ⟨1, none, some (.obj [("type", .str "SyntaxError"), ("message", m),
                            ("lineno", l), ("offset", o)])⟩ ∧
    astToolMain (prog :: cmd :: rest) parse =
      ⟨1, none, some (.obj [("status", .str "error"),
         ("error", .obj [("type", .str "UsageError"),
                         ("message",
                          .str ("Unknown command: " ++ cmd))])])⟩ := by
  have hlen : ¬ (prog :: "list-functions" :: rest).length < 2 := by
    simp only [List.length_cons]
    omega
  have hlen' : ¬ (prog :: cmd :: rest).length < 2 := by
    simp only [List.length_cons]
    omega
  refine ⟨?_, ?_, ?_⟩
  · unfold astToolMain
    rw [if_neg hlen]
    rfl
  · unfold astToolMain
    rw [if_neg hlen]
    rfl
  · unfold astToolMain
    rw [if_neg hlen']
    have hcommand : (((prog :: cmd :: rest).get? 1).getD "") = cmd := rfl
    rw [hcommand, if_neg hcmd]

/-- Closed instance of `astToolMain_contract` at concrete invocations of the
three paths. -/
theorem astToolMain_contract_witness :
    astToolMain ["ast_tool.py", "list-functions"] (.ok ["foo", "bar"]) =
      ⟨0, some (.arr [.str "foo", .str "bar"]), none⟩ ∧
    astToolMain ["ast_tool.py", "list-functions"]
        (.failed (.str "invalid syntax") (.num 3) (.num 1)) =
      ⟨1, none, some (.obj [("type", .str "SyntaxError"),
                            ("message", .str "invalid syntax"),
                            ("lineno", .num 3), ("offset", .num 1)])⟩ ∧
    astToolMain ["ast_tool.py", "frobnicate"] (.ok ["foo", "bar"]) =
      ⟨1, none, some (.obj [("status", .str "error"),
         ("error", .obj [("type", .str "UsageError"),
                         ("message",
                          .str "Unknown command: frobnicate")])])⟩ := by
  have h := astToolMain_contract "ast_tool.py" "frobnicate" [] ["foo", "bar"]
    (.str "invalid syntax") (.num 3) (.num 1) (.ok ["foo", "bar"])
    (by decide)
  exact ⟨h.1, h.2.1, h.2.2⟩

end Typemill
